import Mathlib

/-!
Verification of the two-tier allocator of the ngspades engine:
`HeapBase` / `BasicHeap` (`src/NGSEngine/Utils/Heap.{h,cpp}`) and
`SegmentedHeap` (`src/NGSEngine/Utils/SegmentedHeap.{h,cpp}`).

Pointers are modelled as natural numbers (`0` is the null pointer).
The process-wide system allocator (`std::malloc` / `std::free`) is modelled
explicitly as a state `Sys`: it hands out fresh, non-overlapping address
ranges strictly above every block it has handed out before, and a `plan`
of booleans decides which future `malloc` calls succeed (an empty plan
means every call succeeds).  This reflects the guarantees of the platform
allocator: a successful `malloc` returns a non-null block disjoint from
every currently live block.
-/

set_option autoImplicit false

namespace Ngs

/-- Model of the process system allocator.  `next` is the lowest address
not yet handed out, `live` records the (address, size) of the blocks
handed out and not yet freed, `freed` records the addresses passed to
`std::free`, newest first.  `plan` scripts the success (`true`) or failure
(`false`) of the upcoming `malloc` calls; once exhausted, calls succeed. -/
structure Sys where
  plan : List Bool
  next : Nat
  live : List (Nat × Nat)
  freed : List Nat
deriving Repr, DecidableEq

/-- Model of `std::malloc(sz)`: on success returns the fresh address `next` and
advances `next` past the new block (with a one-byte gap so that zero-size
blocks get distinct addresses); on scripted failure returns `none` (the
null pointer) and changes nothing else. -/
def Sys.malloc (s : Sys) (sz : Nat) : Option Nat × Sys :=
  match s.plan with
  | [] =>
      (some s.next,
        { s with next := s.next + sz + 1, live := (s.next, sz) :: s.live })
  | b :: rest =>
      if b then
        (some s.next,
          { plan := rest, next := s.next + sz + 1,
            live := (s.next, sz) :: s.live, freed := s.freed })
      else (none, { s with plan := rest })

/-- Model of `std::free(p)`: the block at address `p` stops being live. -/
def Sys.mfree (s : Sys) (p : Nat) : Sys :=
  { s with live := s.live.filter (fun q => q.1 ≠ p), freed := p :: s.freed }

/-- Embedding of `ngs::HeapBase` (`Heap.h` lines 11–33): the region allocator over one
fixed storage block `[storage, storage + size)`.  The implementation in
`Heap.cpp` is the stub flagged by its own `TODO` comments: it keeps only
the `m_allocations` pointer set and delegates every allocation to the
system allocator; `m_storage` / `m_size` are never consulted. -/
structure HeapBase where
  storage : Nat
  size : Nat
  allocations : List Nat
deriving Repr, DecidableEq

/-- Embedding of `HeapBase::Allocate` (`Heap.cpp` lines 22–29):
`void *block = std::malloc(size); assert(block);
m_allocations.insert(block); return block;`.
A `none` result models the `assert(block)` firing (malloc failure). -/
def HeapBase.Allocate (h : HeapBase) (s : Sys) (sz : Nat) :
    Option Nat × HeapBase × Sys :=
  match s.malloc sz with
  | (none, s') => (none, h, s')
  | (some p, s') => (some p, { h with allocations := p :: h.allocations }, s')

/-- Embedding of `HeapBase::Free` (`Heap.cpp` lines 31–36):
`std::free(region); m_allocations.erase(m_allocations.find(region));`. -/
def HeapBase.Free (h : HeapBase) (s : Sys) (p : Nat) : HeapBase × Sys :=
  ({ h with allocations := h.allocations.erase p }, s.mfree p)

/-- The byte range `[p, p + sz)` lies fully inside the heap's region. -/
def HeapBase.insideRegion (h : HeapBase) (p sz : Nat) : Prop :=
  h.storage ≤ p ∧ p + sz ≤ h.storage + h.size

instance (h : HeapBase) (p sz : Nat) : Decidable (h.insideRegion p sz) := by
  unfold HeapBase.insideRegion; infer_instance

/-! Part two: SegmentedHeap (`SegmentedHeap.{h,cpp}`).

`SegmentedHeap` holds `std::list<Heap> m_heaps` and an iterator
`m_currentHeapIter` into it.  Its code is written purely against the
`Heap` interface (`Allocate` returning a pointer or null, `Free`), so the
embedding is parametric in the region allocator: a `RegionIface σ` gives
the per-segment allocator's state type `σ` and its three entry points.
The actual `Heap` of the repository is the `HeapBase` stub above; the
parametric form also covers the intended region allocator the spec
describes, which reports a full segment by returning null. -/

/-- The interface of `ngs::Heap` as used by `SegmentedHeap.cpp`:
`alloc` is `Heap::Allocate` (pointer or null, plus the updated segment
state), `free` is `Heap::Free`, and `fresh a` is the state of a freshly
constructed `Heap(segmentSize)` whose storage block landed at address
`a`. -/
structure RegionIface (σ : Type) where
  alloc : σ → Nat → Option Nat × σ
  free : σ → Nat → σ
  fresh : Nat → σ

/-- Error code `NS_ERROR_OUT_OF_MEMORY` from `Xpcom/base/ErrorList.h` line 26. -/
def NS_ERROR_OUT_OF_MEMORY : Nat := 0x8007000e

/-- The segment reference stored in a handle: `m_heapIter` is either
`m_heaps.end()` (the fallback marker, `SegmentedHeap.cpp` line 25) or an
iterator to the owning segment, modelled by its position in `m_heaps`. -/
inductive HRef where
  | fallback
  | seg (i : Nat)
deriving Repr, DecidableEq

/-- Embedding of `SegmentedHeap::Handle` (`SegmentedHeap.h` lines 19–36): the block
pointer and the owning-segment reference. -/
structure Handle where
  block : Nat
  ref : HRef
deriving Repr, DecidableEq

/-- Embedding of `Handle::Dereference` (`SegmentedHeap.h` line 23). -/
def Handle.Dereference (h : Handle) : Nat := h.block

/-- The state of a `SegmentedHeap` (`SegmentedHeap.h` lines 44–47):
the fixed `m_segmentSize`, the segment list `m_heaps`, and the cursor
`m_currentHeapIter` as an index into it (meaningful only while `heaps`
is non-empty, matching the C++ iterator). -/
structure SegmentedHeap (σ : Type) where
  segmentSize : Nat
  heaps : List σ
  cur : Nat
deriving Repr, DecidableEq

/-- Outcome of `SegmentedHeap::Allocate`: a normal return, a thrown
`ComException` carrying its `nsresult`, or a trip of the
`assert(block)` on `SegmentedHeap.cpp` line 59.  The outcome carries the
heap and system-allocator state left behind. -/
inductive AllocOutcome (σ : Type) where
  | ok (h : Handle) (st : SegmentedHeap σ) (s : Sys)
  | err (code : Nat) (st : SegmentedHeap σ) (s : Sys)
  | assertFail (st : SegmentedHeap σ) (s : Sys)
deriving Repr, DecidableEq

/-- The do-while probe loop of `SegmentedHeap::Allocate`
(`SegmentedHeap.cpp` lines 37–48): starting at `cur`, probe each
segment's allocator, wrapping past the end, until one succeeds or the
loop returns to `first`.  `fuel` bounds the iterations; the caller passes
`heaps.length`, which the loop never exceeds.  Returns the pointer and
the index of the satisfying segment, or `none` when every segment was
probed without success (in which case the C++ iterator is back at
`first`), together with the updated segment states. -/
def probeLoop {σ : Type} (I : RegionIface σ) (bs : Nat) :
    Nat → List σ → Nat → Nat → Option (Nat × Nat) × List σ
  | 0, heaps, _, _ => (none, heaps)
  | fuel + 1, heaps, cur, first =>
    match heaps.get? cur with
    | none => (none, heaps)
    | some hs =>
      match I.alloc hs bs with
      | (some p, hs') => (some (p, cur), heaps.set cur hs')
      | (none, hs') =>
        let heaps' := heaps.set cur hs'
        let cur' := if cur + 1 = heaps'.length then 0 else cur + 1
        if cur' = first then (none, heaps')
        else probeLoop I bs fuel heaps' cur' first

/-- The part of `SegmentedHeap::Allocate` after the fallback test and the
empty-list branch (`SegmentedHeap.cpp` lines 37–60): probe the existing
segments; if all are full, `emplace_back` one new segment (rethrowing any
construction failure as `NS_ERROR_OUT_OF_MEMORY`), set
`m_currentHeapIter = m_heaps.begin()` and allocate from that segment,
asserting the result non-null. -/
def allocProbe {σ : Type} (I : RegionIface σ) (st : SegmentedHeap σ)
    (s : Sys) (blockSize : Nat) : AllocOutcome σ :=
  match probeLoop I blockSize st.heaps.length st.heaps st.cur st.cur with
  | (some (p, i), heaps') =>
      .ok ⟨p, .seg i⟩ { st with heaps := heaps', cur := i } s
  | (none, heaps') =>
    match s.malloc st.segmentSize with
    | (none, s') => .err NS_ERROR_OUT_OF_MEMORY { st with heaps := heaps' } s'
    | (some a, s') =>
      let heaps2 := heaps' ++ [I.fresh a]
      match heaps2.get? 0 with
      | none => .assertFail { st with heaps := heaps2, cur := 0 } s'
      | some h0 =>
        match I.alloc h0 blockSize with
        | (some p, h0') =>
            .ok ⟨p, .seg 0⟩ { st with heaps := heaps2.set 0 h0', cur := 0 } s'
        | (none, h0') =>
            .assertFail { st with heaps := heaps2.set 0 h0', cur := 0 } s'

/-- Embedding of `SegmentedHeap::Allocate` (`SegmentedHeap.cpp` lines 17–61).
If `blockSize > m_segmentSize / 4`, `malloc` directly and return a
handle carrying the fallback marker, throwing `NS_ERROR_OUT_OF_MEMORY`
when `malloc` fails.  Otherwise, if `m_heaps` is empty, construct the
first segment (its storage comes from the system allocator; any
construction failure is rethrown as `NS_ERROR_OUT_OF_MEMORY`) and put the
cursor on it; then run `allocProbe`. -/
def SegmentedHeap.Allocate {σ : Type} (I : RegionIface σ)
    (st : SegmentedHeap σ) (s : Sys) (blockSize : Nat) : AllocOutcome σ :=
  if blockSize > st.segmentSize / 4 then
    match s.malloc blockSize with
    | (none, s') => .err NS_ERROR_OUT_OF_MEMORY st s'
    | (some p, s') => .ok ⟨p, .fallback⟩ st s'
  else if st.heaps.isEmpty then
    match s.malloc st.segmentSize with
    | (none, s') => .err NS_ERROR_OUT_OF_MEMORY st s'
    | (some a, s') =>
        allocProbe I { st with heaps := [I.fresh a], cur := 0 } s' blockSize
  else allocProbe I st s blockSize

/-- Embedding of `SegmentedHeap::Free` (`SegmentedHeap.cpp` lines 63–73): a fallback
handle goes to `std::free`; otherwise the owning segment's `Heap::Free`
runs and the cursor moves to that segment.  A segment reference outside
the list is an invalid handle (undefined behaviour in the C++); the model
leaves the state unchanged there. -/
def SegmentedHeap.Free {σ : Type} (I : RegionIface σ)
    (st : SegmentedHeap σ) (s : Sys) (h : Handle) : SegmentedHeap σ × Sys :=
  match h.ref with
  | .fallback => (st, s.mfree h.block)
  | .seg i =>
    match st.heaps.get? i with
    | none => (st, s)
    | some hs =>
        ({ st with heaps := st.heaps.set i (I.free hs h.block), cur := i }, s)

/-! Concrete region-allocator instances used in witnesses and
counterexamples. -/

/-- A region allocator that always succeeds: the state counts the
allocations made, pointers are `100 + count`. -/
def okIface : RegionIface Nat :=
  { alloc := fun s _ => (some (100 + s), s + 1),
    free := fun s _ => s,
    fresh := fun _ => 0 }

/-- A region allocator that is permanently full: every `Allocate`
returns null and leaves the segment unchanged. -/
def fullIface : RegionIface Unit :=
  { alloc := fun s _ => (none, s),
    free := fun s _ => s,
    fresh := fun _ => () }

/-- A region allocator whose state counts how many more `Allocate` calls
return null before the next one succeeds (with pointer `777`).  A fresh
segment starts with one pending refusal. -/
def flakyIface : RegionIface Nat :=
  { alloc := fun s _ => if s = 0 then (some 777, 0) else (none, s - 1),
    free := fun s _ => s,
    fresh := fun _ => 1 }

/-! Helper lemmas. -/

theorem list_set_get_eq {α : Type} :
    ∀ (l : List α) (i : Nat) (a : α), l.get? i = some a → l.set i a = l
  | [], i, a, h => by simp at h
  | x :: xs, 0, a, h => by
      simp only [List.get?] at h
      cases h
      rfl
  | x :: xs, i + 1, a, h => by
      simp only [List.get?] at h
      simp only [List.set]
      rw [list_set_get_eq xs i a h]

/-- When the scripted plan never fails, `malloc` succeeds and the plan
stays all-successes. -/
theorem malloc_allTrue (s : Sys) (hAll : ∀ b ∈ s.plan, b = true) (sz : Nat) :
    ∃ s', s.malloc sz = (some s.next, s') ∧ ∀ b ∈ s'.plan, b = true := by
  unfold Sys.malloc
  cases hp : s.plan with
  | nil => exact ⟨_, rfl, by simp⟩
  | cons b rest =>
      have hb : b = true := hAll b (by rw [hp]; exact List.mem_cons_self b rest)
      subst hb
      refine ⟨_, rfl, fun b' hb' => hAll b' ?_⟩
      rw [hp]
      exact List.mem_cons_of_mem _ hb'

/-- A probe round that fails everywhere leaves the segment states
unchanged, provided a null-returning probe leaves its segment unchanged
(true of any deterministic region allocator, and of the stub). -/
theorem probeLoop_none_heaps {σ : Type} (I : RegionIface σ) (bs : Nat)
    (hfail : ∀ hs n, (I.alloc hs n).1 = none → (I.alloc hs n).2 = hs) :
    ∀ (fuel : Nat) (heaps : List σ) (cur first : Nat) (heaps' : List σ),
      probeLoop I bs fuel heaps cur first = (none, heaps') → heaps' = heaps := by
  intro fuel
  induction fuel with
  | zero => intro heaps cur first heaps' h; cases h; rfl
  | succ n ih =>
      intro heaps cur first heaps' h
      unfold probeLoop at h
      split at h
      · cases h; rfl
      · rename_i hs hg
        split at h
        · simp at h
        · rename_i hs' ha
          have hpres : hs' = hs := by
            have h1 := hfail hs bs (by rw [ha])
            rw [ha] at h1
            exact h1
          rw [hpres, list_set_get_eq heaps cur hs hg] at h
          simp only at h
          split at h
          · split at h
            · cases h; rfl
            · exact ih heaps 0 first heaps' h
          · split at h
            · cases h; rfl
            · exact ih heaps (cur + 1) first heaps' h

/-- Anatomy of an `allocProbe` failure: the code is always
`NS_ERROR_OUT_OF_MEMORY`, the growth-time `malloc` failed, and the final
segment list is the probe-updated one, the cursor untouched. -/
theorem allocProbe_err_anatomy {σ : Type} (I : RegionIface σ)
    (st : SegmentedHeap σ) (s : Sys) (bs : Nat) (c : Nat)
    (st' : SegmentedHeap σ) (s' : Sys)
    (h : allocProbe I st s bs = .err c st' s') :
    c = NS_ERROR_OUT_OF_MEMORY ∧ (s.malloc st.segmentSize).1 = none ∧
    ∃ heaps', probeLoop I bs st.heaps.length st.heaps st.cur st.cur
        = (none, heaps') ∧ st' = { st with heaps := heaps' } := by
  unfold allocProbe at h
  split at h
  · cases h
  · rename_i heaps' hp
    split at h
    · rename_i s2 hm
      cases h
      exact ⟨rfl, by rw [hm], heaps', hp, rfl⟩
    · rename_i a s2 hm
      simp only at h
      split at h
      · cases h
      · split at h
        · cases h
        · cases h

/-- Every successful `allocProbe` hands back a segment-tagged handle and
leaves the cursor on that segment. -/
theorem allocProbe_ok_ref_cur {σ : Type} (I : RegionIface σ)
    (st : SegmentedHeap σ) (s : Sys) (bs : Nat) (h : Handle)
    (st' : SegmentedHeap σ) (s' : Sys)
    (heq : allocProbe I st s bs = .ok h st' s') :
    ∃ i, h.ref = .seg i ∧ st'.cur = i := by
  unfold allocProbe at heq
  split at heq
  · cases heq
    exact ⟨_, rfl, rfl⟩
  · split at heq
    · cases heq
    · simp only at heq
      split at heq
      · cases heq
      · split at heq
        · cases heq
          exact ⟨0, rfl, rfl⟩
        · cases heq

/-! Claims about the region allocator (`HeapBase`, `Heap.cpp`). -/

/-- C5: the claim says an oversized request (size > region capacity)
returns null.  The stub `HeapBase::Allocate` never consults the region
capacity: on a 16-byte region a 17-byte request is handed to the system
allocator and a non-null block is returned. -/
theorem c5_oversized_request_not_null :
    17 > (⟨1, 16, []⟩ : HeapBase).size ∧
    (HeapBase.Allocate ⟨1, 16, []⟩ ⟨[], 2000, [(1, 16)], []⟩ 17).1 = some 2000 := by
  decide

/-- C6: the claim says every returned run lies fully inside the region.
The stub places every allocation with the system allocator: on the region
`[1, 1025)` a 16-byte request returns the block at address `2000`, which
is entirely outside the region. -/
theorem c6_block_outside_region :
    (HeapBase.Allocate ⟨1, 1024, []⟩ ⟨[], 2000, [(1, 1024)], []⟩ 16).1 = some 2000 ∧
    ¬ (⟨1, 1024, []⟩ : HeapBase).insideRegion 2000 16 := by
  decide

/-- C7: the claim says freeing two adjacent in-region runs coalesces them
into one spanning free run.  The stub allocates both runs outside the
region (so the claim's premise can never arise) and its `Free` merely
erases the pointer from the tracking set — after freeing both blocks, in
either order, the heap state is exactly the initial one, with no free-run
bookkeeping anywhere. -/
theorem c7_no_coalescing_structure :
    HeapBase.Allocate ⟨1, 1024, []⟩ ⟨[], 1026, [(1, 1024)], []⟩ 50
      = (some 1026, ⟨1, 1024, [1026]⟩,
         ⟨[], 1077, [(1026, 50), (1, 1024)], []⟩) ∧
    HeapBase.Allocate ⟨1, 1024, [1026]⟩ ⟨[], 1077, [(1026, 50), (1, 1024)], []⟩ 50
      = (some 1077, ⟨1, 1024, [1077, 1026]⟩,
         ⟨[], 1128, [(1077, 50), (1026, 50), (1, 1024)], []⟩) ∧
    ¬ (⟨1, 1024, []⟩ : HeapBase).insideRegion 1026 50 ∧
    ¬ (⟨1, 1024, []⟩ : HeapBase).insideRegion 1077 50 ∧
    (HeapBase.Free
        (HeapBase.Free ⟨1, 1024, [1077, 1026]⟩
          ⟨[], 1128, [(1077, 50), (1026, 50), (1, 1024)], []⟩ 1026).1
        ⟨[], 1128, [], []⟩ 1077).1 = ⟨1, 1024, []⟩ ∧
    (HeapBase.Free
        (HeapBase.Free ⟨1, 1024, [1077, 1026]⟩
          ⟨[], 1128, [(1077, 50), (1026, 50), (1, 1024)], []⟩ 1077).1
        ⟨[], 1128, [], []⟩ 1026).1 = ⟨1, 1024, []⟩ := by
  decide

/-- C9: a zero-size request returns a non-null pointer distinct from
every pointer currently tracked by the allocator, whenever the system
allocator call behind the stub succeeds (`s.plan` does not script a
failure) and the state is reachable (all tracked pointers were handed out
below `s.next`, and `s.next` is a valid non-null address). -/
theorem c9_zero_size_alloc (h : HeapBase) (s : Sys)
    (hpos : 0 < s.next)
    (hlive : ∀ a ∈ h.allocations, a < s.next)
    (hplan : s.plan.head? ≠ some false) :
    ∃ p h' s', HeapBase.Allocate h s 0 = (some p, h', s') ∧
      p ≠ 0 ∧ p ∉ h.allocations := by
  unfold HeapBase.Allocate Sys.malloc
  cases hp : s.plan with
  | nil =>
      refine ⟨s.next, _, _, rfl, by omega, fun hmem => ?_⟩
      exact absurd (hlive _ hmem) (by omega)
  | cons b rest =>
      cases b with
      | false => rw [hp] at hplan; simp at hplan
      | true =>
          refine ⟨s.next, _, _, rfl, by omega, fun hmem => ?_⟩
          exact absurd (hlive _ hmem) (by omega)

/-- Witness for C9 at a concrete reachable state. -/
theorem c9_zero_size_alloc_witness :
    (0 < (⟨[], 5, [(2, 1)], []⟩ : Sys).next) ∧
    (∃ p h' s',
      HeapBase.Allocate ⟨1, 16, [2]⟩ ⟨[], 5, [(2, 1)], []⟩ 0 = (some p, h', s') ∧
      p ≠ 0 ∧ p ∉ (⟨1, 16, [2]⟩ : HeapBase).allocations) :=
  ⟨by decide,
   c9_zero_size_alloc ⟨1, 16, [2]⟩ ⟨[], 5, [(2, 1)], []⟩ (by decide)
     (by decide) (by decide)⟩

/-! Claims about the segmented heap (`SegmentedHeap.cpp`). -/

/-- C2: a request above `segmentSize / 4` is satisfied directly by the
system allocator — the returned handle is fallback-tagged, its block is
exactly the `malloc` result, and the heap state (segment list and
cursor) is untouched, also when that `malloc` fails; a request at or
below the threshold never yields a fallback-tagged handle. -/
theorem c2_threshold_routing {σ : Type} (I : RegionIface σ)
    (st : SegmentedHeap σ) (s : Sys) (bs : Nat) :
    (bs > st.segmentSize / 4 →
      (∀ h st' s', SegmentedHeap.Allocate I st s bs = .ok h st' s' →
        h.ref = .fallback ∧ st' = st ∧ s.malloc bs = (some h.block, s')) ∧
      (∀ c st' s', SegmentedHeap.Allocate I st s bs = .err c st' s' →
        st' = st)) ∧
    (bs ≤ st.segmentSize / 4 →
      ∀ h st' s', SegmentedHeap.Allocate I st s bs = .ok h st' s' →
        h.ref ≠ .fallback) := by
  constructor
  · intro hgt
    constructor
    · intro h st' s' heq
      unfold SegmentedHeap.Allocate at heq
      rw [if_pos hgt] at heq
      split at heq
      · cases heq
      · rename_i p s2 hm
        cases heq
        exact ⟨rfl, rfl, by rw [hm]⟩
    · intro c st' s' heq
      unfold SegmentedHeap.Allocate at heq
      rw [if_pos hgt] at heq
      split at heq
      · cases heq
        rfl
      · cases heq
  · intro hle h st' s' heq href
    unfold SegmentedHeap.Allocate at heq
    rw [if_neg (by omega)] at heq
    split at heq
    · split at heq
      · cases heq
      · obtain ⟨i, hi, _⟩ := allocProbe_ok_ref_cur _ _ _ _ _ _ _ heq
        rw [href] at hi
        cases hi
    · obtain ⟨i, hi, _⟩ := allocProbe_ok_ref_cur _ _ _ _ _ _ _ heq
      rw [href] at hi
      cases hi

/-- Witness for C2's large-request half at segment size 1024 and request
size 300 (the spec's end-to-end scenario 2). -/
theorem c2_threshold_routing_witness :
    (300 > (1024 : Nat) / 4) ∧
    ((⟨1, .fallback⟩ : Handle).ref = .fallback ∧
      (⟨1024, [], 0⟩ : SegmentedHeap Nat) = ⟨1024, [], 0⟩ ∧
      Sys.malloc ⟨[], 1, [], []⟩ 300 = (some 1, ⟨[], 302, [(1, 300)], []⟩)) :=
  ⟨by decide,
   ((c2_threshold_routing okIface ⟨1024, [], 0⟩ ⟨[], 1, [], []⟩ 300).1
     (by decide)).1 ⟨1, .fallback⟩ ⟨1024, [], 0⟩ ⟨[], 302, [(1, 300)], []⟩
     (by decide)⟩

/-- C3: whenever `Allocate` succeeds with a handle owned by segment `i`,
the cursor of the resulting state is on segment `i`, so the next call
starts probing there. -/
theorem c3_cursor_on_satisfying_segment {σ : Type} (I : RegionIface σ)
    (st : SegmentedHeap σ) (s : Sys) (bs : Nat) (h : Handle)
    (st' : SegmentedHeap σ) (s' : Sys) (i : Nat)
    (heq : SegmentedHeap.Allocate I st s bs = .ok h st' s')
    (href : h.ref = .seg i) : st'.cur = i := by
  unfold SegmentedHeap.Allocate at heq
  split at heq
  · split at heq
    · cases heq
    · cases heq
      cases href
  · have key : ∀ st₁ s₁, allocProbe I st₁ s₁ bs = .ok h st' s' → st'.cur = i := by
      intro st₁ s₁ hp
      obtain ⟨j, hj, hc⟩ := allocProbe_ok_ref_cur _ _ _ _ _ _ _ hp
      rw [href] at hj
      cases hj
      exact hc
    split at heq
    · split at heq
      · cases heq
      · exact key _ _ heq
    · exact key _ _ heq

/-- Witness for C3: the first allocation from an empty heap is satisfied
by the newly created segment 0 and leaves the cursor on it. -/
theorem c3_cursor_on_satisfying_segment_witness :
    SegmentedHeap.Allocate okIface ⟨1024, [], 0⟩ ⟨[], 1, [], []⟩ 200
      = .ok ⟨100, .seg 0⟩ ⟨1024, [1], 0⟩ ⟨[], 1026, [(1, 1024)], []⟩ ∧
    (⟨1024, [1], 0⟩ : SegmentedHeap Nat).cur = 0 :=
  ⟨by decide,
   c3_cursor_on_satisfying_segment okIface ⟨1024, [], 0⟩ ⟨[], 1, [], []⟩ 200
     ⟨100, .seg 0⟩ ⟨1024, [1], 0⟩ ⟨[], 1026, [(1, 1024)], []⟩ 0
     (by decide) rfl⟩

/-- C4: `Free` of a fallback handle goes to the system allocator and
leaves the heap untouched; `Free` of a segment handle runs the owning
segment's `Free` and moves the cursor there; in every case the segment
count is unchanged. -/
theorem c4_free_dispatch {σ : Type} (I : RegionIface σ)
    (st : SegmentedHeap σ) (s : Sys) (h : Handle) :
    (h.ref = .fallback →
      SegmentedHeap.Free I st s h = (st, s.mfree h.block)) ∧
    (∀ i hs, h.ref = .seg i → st.heaps.get? i = some hs →
      SegmentedHeap.Free I st s h =
        ({ st with heaps := st.heaps.set i (I.free hs h.block), cur := i }, s)) ∧
    ((SegmentedHeap.Free I st s h).1).heaps.length = st.heaps.length := by
  obtain ⟨blk, ref⟩ := h
  cases ref with
  | fallback =>
      refine ⟨fun _ => rfl, ?_, rfl⟩
      intro i hs hseg _
      exact absurd hseg (by simp)
  | seg j =>
      refine ⟨?_, ?_, ?_⟩
      · intro hf
        exact absurd hf (by simp)
      · intro i hs hseg hget
        cases hseg
        unfold SegmentedHeap.Free
        simp only
        rw [hget]
      · unfold SegmentedHeap.Free
        simp only
        split
        · rfl
        · simp [List.length_set]

/-- Witness for C4 on a two-segment heap: one fallback free and one
segment free, each matching its specified result. -/
theorem c4_free_dispatch_witness :
    (SegmentedHeap.Free okIface ⟨1024, [5, 7], 0⟩ ⟨[], 1, [], []⟩ ⟨42, .fallback⟩
      = (⟨1024, [5, 7], 0⟩, Sys.mfree ⟨[], 1, [], []⟩ 42)) ∧
    (SegmentedHeap.Free okIface ⟨1024, [5, 7], 0⟩ ⟨[], 1, [], []⟩ ⟨42, .seg 1⟩
      = (⟨1024, [5, 7], 1⟩, ⟨[], 1, [], []⟩)) :=
  ⟨(c4_free_dispatch okIface ⟨1024, [5, 7], 0⟩ ⟨[], 1, [], []⟩ ⟨42, .fallback⟩).1
     rfl,
   by
    have h2 := (c4_free_dispatch okIface ⟨1024, [5, 7], 0⟩ ⟨[], 1, [], []⟩
      ⟨42, .seg 1⟩).2.1 1 7 rfl (by decide)
    rw [h2]
    decide⟩

/-- C8: every error `Allocate` raises carries `NS_ERROR_OUT_OF_MEMORY`;
no error is raised while the system allocator succeeds; and a system
allocator failure during the fallback allocation, or during creation of
the first segment, raises exactly that error.  (`Free` contains no throw
site at all: it is a total function in this model, matching its
`noexcept` callees.) -/
theorem c8_error_is_always_oom {σ : Type} (I : RegionIface σ)
    (st : SegmentedHeap σ) (s : Sys) (bs : Nat) :
    (∀ c st' s', SegmentedHeap.Allocate I st s bs = .err c st' s' →
      c = NS_ERROR_OUT_OF_MEMORY) ∧
    ((∀ b ∈ s.plan, b = true) →
      ∀ c st' s', SegmentedHeap.Allocate I st s bs ≠ .err c st' s') ∧
    (bs > st.segmentSize / 4 → (s.malloc bs).1 = none →
      ∃ s', SegmentedHeap.Allocate I st s bs = .err NS_ERROR_OUT_OF_MEMORY st s') ∧
    (bs ≤ st.segmentSize / 4 → st.heaps = [] →
      (s.malloc st.segmentSize).1 = none →
      ∃ s', SegmentedHeap.Allocate I st s bs
        = .err NS_ERROR_OUT_OF_MEMORY st s') := by
  refine ⟨?_, ?_, ?_, ?_⟩
  · intro c st' s' heq
    unfold SegmentedHeap.Allocate at heq
    split at heq
    · split at heq
      · cases heq; rfl
      · cases heq
    · split at heq
      · split at heq
        · cases heq; rfl
        · exact (allocProbe_err_anatomy _ _ _ _ _ _ _ heq).1
      · exact (allocProbe_err_anatomy _ _ _ _ _ _ _ heq).1
  · intro hAll c st' s' heq
    unfold SegmentedHeap.Allocate at heq
    split at heq
    · split at heq
      · rename_i s2 hm
        obtain ⟨s3, hm2, _⟩ := malloc_allTrue s hAll bs
        rw [hm2] at hm
        simp at hm
      · cases heq
    · split at heq
      · split at heq
        · rename_i s2 hm
          obtain ⟨s3, hm2, _⟩ := malloc_allTrue s hAll st.segmentSize
          rw [hm2] at hm
          simp at hm
        · rename_i a s2 hm
          obtain ⟨s3, hm2, hAll2⟩ := malloc_allTrue s hAll st.segmentSize
          rw [hm2] at hm
          cases hm
          have hnone := (allocProbe_err_anatomy _ _ _ _ _ _ _ heq).2.1
          have hseg : ({ st with heaps := [I.fresh s.next], cur := 0 } :
              SegmentedHeap σ).segmentSize = st.segmentSize := rfl
          rw [hseg] at hnone
          obtain ⟨s4, hm4, _⟩ := malloc_allTrue _ hAll2 st.segmentSize
          rw [hm4] at hnone
          simp at hnone
      · have hnone := (allocProbe_err_anatomy _ _ _ _ _ _ _ heq).2.1
        obtain ⟨s3, hm2, _⟩ := malloc_allTrue s hAll st.segmentSize
        rw [hm2] at hnone
        simp at hnone
  · intro hgt hm
    cases hm2 : s.malloc bs with
    | mk r s2 =>
        rw [hm2] at hm
        cases r with
        | some p => simp at hm
        | none =>
            refine ⟨s2, ?_⟩
            unfold SegmentedHeap.Allocate
            rw [if_pos hgt, hm2]
  · intro hle hE hm
    cases hm2 : s.malloc st.segmentSize with
    | mk r s2 =>
        rw [hm2] at hm
        cases r with
        | some p => simp at hm
        | none =>
            refine ⟨s2, ?_⟩
            unfold SegmentedHeap.Allocate
            rw [if_neg (by omega), hE]
            simp only [List.isEmpty_nil, if_true]
            rw [hm2]

/-- Witness for C8: a scripted system-allocator failure on the fallback
path raises exactly the out-of-memory error. -/
theorem c8_error_is_always_oom_witness :
    (300 > (1024 : Nat) / 4) ∧
    ((Sys.malloc ⟨[false], 1, [], []⟩ 300).1 = none) ∧
    (∃ s', SegmentedHeap.Allocate okIface ⟨1024, [], 0⟩ ⟨[false], 1, [], []⟩ 300
      = .err NS_ERROR_OUT_OF_MEMORY ⟨1024, [], 0⟩ s') :=
  ⟨by decide, by decide,
   (c8_error_is_always_oom okIface ⟨1024, [], 0⟩ ⟨[false], 1, [], []⟩ 300).2.2.1
     (by decide) (by decide)⟩

/-- C10 counterexample: an out-of-memory failure can leave the heap
grown.  Starting from an empty segment collection with a system
allocator that serves one call and then fails, `Allocate(200)` creates
the first segment, fails to place the block (the segment reports full),
fails to create the second segment, and throws — leaving one segment
where there was none. -/
theorem c10_oom_can_leave_new_segment :
    SegmentedHeap.Allocate fullIface ⟨1024, [], 0⟩ ⟨[true, false], 1, [], []⟩ 200
      = .err NS_ERROR_OUT_OF_MEMORY ⟨1024, [()], 0⟩ ⟨[], 1026, [(1, 1024)], []⟩ ∧
    (⟨1024, [()], 0⟩ : SegmentedHeap Unit).heaps.length ≠
      (⟨1024, [], 0⟩ : SegmentedHeap Unit).heaps.length := by
  decide

/-- C10 as amended: when `Allocate` throws out-of-memory, the heap state
is unchanged whenever the segment collection was non-empty; from an
empty collection the failed call leaves either no segment or exactly one
freshly created (still unused) segment with the cursor on it.  The
hypothesis `hfail` states that a probe that returns null leaves the
segment state unchanged, which holds for the stub and any deterministic
region allocator. -/
theorem c10_oom_preserves_state {σ : Type} (I : RegionIface σ)
    (st : SegmentedHeap σ) (s : Sys) (bs : Nat)
    (hfail : ∀ hs n, (I.alloc hs n).1 = none → (I.alloc hs n).2 = hs) :
    ∀ c st' s', SegmentedHeap.Allocate I st s bs = .err c st' s' →
      (st.heaps ≠ [] → st' = st) ∧
      (st.heaps = [] →
        st' = st ∨ ∃ a, st' = { st with heaps := [I.fresh a], cur := 0 }) := by
  intro c st' s' heq
  unfold SegmentedHeap.Allocate at heq
  split at heq
  · split at heq
    · cases heq
      exact ⟨fun _ => rfl, fun _ => Or.inl rfl⟩
    · cases heq
  · rename_i hEmp
    split at heq
    · rename_i hE
      split at heq
      · cases heq
        exact ⟨fun _ => rfl, fun _ => Or.inl rfl⟩
      · rename_i a s2 hm
        obtain ⟨c1, hmal, heaps', hpl, hst⟩ :=
          allocProbe_err_anatomy _ _ _ _ _ _ _ heq
        have hE' : st.heaps = [] := by
          cases hl : st.heaps with
          | nil => rfl
          | cons x xs => rw [hl] at hE; simp at hE
        have hre : heaps' = [I.fresh a] :=
          probeLoop_none_heaps I bs hfail _ _ _ _ _ hpl
        refine ⟨fun hne => absurd hE' hne, fun _ => Or.inr ⟨a, ?_⟩⟩
        rw [hst, hre]
    · rename_i hE
      obtain ⟨c1, hmal, heaps', hpl, hst⟩ :=
        allocProbe_err_anatomy _ _ _ _ _ _ _ heq
      have hre : heaps' = st.heaps :=
        probeLoop_none_heaps I bs hfail _ _ _ _ _ hpl
      have hsame : st' = st := by rw [hst, hre]
      exact ⟨fun _ => hsame, fun _ => Or.inl hsame⟩

/-- Witness for C10's amended statement: with one full segment and a
failing system allocator, the failed call leaves the state untouched. -/
theorem c10_oom_preserves_state_witness :
    SegmentedHeap.Allocate fullIface ⟨1024, [()], 0⟩ ⟨[false], 1, [], []⟩ 200
      = .err NS_ERROR_OUT_OF_MEMORY ⟨1024, [()], 0⟩ ⟨[], 1, [], []⟩ ∧
    (⟨1024, [()], 0⟩ : SegmentedHeap Unit) = ⟨1024, [()], 0⟩ :=
  ⟨by decide,
   (c10_oom_preserves_state fullIface ⟨1024, [()], 0⟩ ⟨[false], 1, [], []⟩ 200
     (fun _ _ _ => rfl) NS_ERROR_OUT_OF_MEMORY ⟨1024, [()], 0⟩
     ⟨[], 1, [], []⟩ (by decide)).1 (by decide)⟩

/-- C1: the claim says that when every existing segment is full, the
block of the returned handle comes from the newly created segment.  The
code appends the new segment at the back but then sets the cursor to
`m_heaps.begin()` and allocates from that old first segment
(`SegmentedHeap.cpp` lines 56–60).  First run: a segment that refuses
one request and then serves the next — the call appends one new segment
(index 1) yet hands back a block from the pre-existing segment 0.
Second run: a deterministically full segment — the post-growth
allocation from the old segment returns null again and the code's own
`assert(block)` fails instead of allocating from the new segment. -/
theorem c1_growth_allocates_from_old_segment :
    (SegmentedHeap.Allocate flakyIface ⟨4, [1], 0⟩ ⟨[], 50, [], []⟩ 1
      = .ok ⟨777, .seg 0⟩ ⟨4, [0, 1], 0⟩ ⟨[], 55, [(50, 4)], []⟩ ∧
     (⟨777, .seg 0⟩ : Handle).ref ≠ .seg 1 ∧
     (⟨4, [0, 1], 0⟩ : SegmentedHeap Nat).heaps.length
       = (⟨4, [1], 0⟩ : SegmentedHeap Nat).heaps.length + 1) ∧
    (SegmentedHeap.Allocate fullIface ⟨1024, [()], 0⟩ ⟨[], 2000, [], []⟩ 200
      = .assertFail ⟨1024, [(), ()], 0⟩ ⟨[], 3025, [(2000, 1024)], []⟩) := by
  decide

end Ngs
